import Mathlib

/-!
Verification of the state-encoding model of the gomelcloud client library
(package melcloud).  The development shallowly embeds the device-state
record, the string/integer codecs for operation mode, fan speed and vane
positions, the change-flag bitmask accumulation performed by the setters
(ata_device.go), and the local validation prefix of Client.SetDeviceState
(client.go).  Go machine integers are modelled as unbounded Int: the only
arithmetic performed on them is bitwise or, which never overflows, and the
decimal parser models the int64 range check of strconv.Atoi explicitly.
Go float64 temperatures are modelled as Rat: the code only stores and
reads them back, so no rounding behaviour is involved.  A Go method that
mutates its receiver and returns an error is modelled as a function from
the state to a pair of the post-call state and an optional error message.
-/

namespace Melcloud

/-- AtaDeviceState from ata_device.go: the detailed state of an
Air-to-Air device, combining base device fields and ATA specific ones. -/
structure AtaDeviceState where
  DeviceID : Int
  BuildingID : Int
  MacAddress : String
  SerialNumber : String
  DeviceType : Int
  Power : Bool
  RoomTemperature : Rat
  SetTemperature : Rat
  OperationMode : Int
  SetFanSpeed : Int
  VaneHorizontal : Int
  VaneVertical : Int
  ErrorCode : Int
  HasError : Bool
  LastCommunication : String
  EffectiveFlags : Int
  HasPendingCommand : Bool
  deriving Repr, DecidableEq

/-- The Go zero value of AtaDeviceState: what a freshly decoded state
starts from before any JSON field is assigned.  In particular
EffectiveFlags is 0 and HasPendingCommand is false. -/
def zeroAtaDeviceState : AtaDeviceState where
  DeviceID := 0
  BuildingID := 0
  MacAddress := ""
  SerialNumber := ""
  DeviceType := 0
  Power := false
  RoomTemperature := 0
  SetTemperature := 0
  OperationMode := 0
  SetFanSpeed := 0
  VaneHorizontal := 0
  VaneVertical := 0
  ErrorCode := 0
  HasError := false
  LastCommunication := ""
  EffectiveFlags := 0
  HasPendingCommand := false

/-! EffectiveFlags bit constants from ata_device.go. -/

def FlagPower : Int := 0x01

def FlagOperationMode : Int := 0x02

def FlagTargetTemp : Int := 0x04

def FlagFanSpeed : Int := 0x08

def FlagVaneVertical : Int := 0x10

def FlagVaneHorizontal : Int := 0x100

/-! Operation mode integer constants. -/

def OpModeHeat : Int := 1

def OpModeDry : Int := 2

def OpModeCool : Int := 3

def OpModeFanOnly : Int := 7

def OpModeHeatCool : Int := 8

/-! Fan speed integer constants. -/

def FanSpeedAuto : Int := 0

/-! Vane vertical position integer constants. -/

def VaneVertAuto : Int := 0

def VaneVert1 : Int := 1

def VaneVert2 : Int := 2

def VaneVert3 : Int := 3

def VaneVert4 : Int := 4

def VaneVert5 : Int := 5

def VaneVertSwing : Int := 7

/-! Vane horizontal position integer constants. -/

def VaneHorizAuto : Int := 0

def VaneHoriz1 : Int := 1

def VaneHoriz2 : Int := 2

def VaneHoriz3 : Int := 3

def VaneHoriz4 : Int := 4

def VaneHoriz5 : Int := 5

def VaneHorizSplit : Int := 8

def VaneHorizSwing : Int := 12

/-! String constants for user interaction. -/

def ModeHeat : String := "heat"

def ModeDry : String := "dry"

def ModeCool : String := "cool"

def ModeFanOnly : String := "fan_only"

def ModeHeatCool : String := "heat_cool"

def ModeUnknown : String := "unknown"

def FanAuto : String := "auto"

def VaneAuto : String := "auto"

def VaneSwing : String := "swing"

def VaneSplit : String := "split"

/-- The Go map opModeIntToString, as a partial lookup function. -/
def opModeIntToString (n : Int) : Option String :=
  if n = OpModeHeat then some ModeHeat
  else if n = OpModeDry then some ModeDry
  else if n = OpModeCool then some ModeCool
  else if n = OpModeFanOnly then some ModeFanOnly
  else if n = OpModeHeatCool then some ModeHeatCool
  else none

/-- The Go map opModeStringToInt, as a partial lookup function. -/
def opModeStringToInt (s : String) : Option Int :=
  if s = ModeHeat then some OpModeHeat
  else if s = ModeDry then some OpModeDry
  else if s = ModeCool then some OpModeCool
  else if s = ModeFanOnly then some OpModeFanOnly
  else if s = ModeHeatCool then some OpModeHeatCool
  else none

/-- OperationModeString from ata_device.go: the string representation of
the current operation mode, with ModeUnknown for codes outside the map. -/
def OperationModeString (s : AtaDeviceState) : String :=
  match opModeIntToString s.OperationMode with
  | some mode => mode
  | none => ModeUnknown

/-- SetPower from ata_device.go: updates Power and ORs in FlagPower. -/
def SetPower (s : AtaDeviceState) (power : Bool) : AtaDeviceState :=
  { s with Power := power, EffectiveFlags := Int.lor s.EffectiveFlags FlagPower }

/-- SetOperationMode from ata_device.go: updates OperationMode from a
string label and ORs in FlagOperationMode, or returns an error leaving
the receiver untouched.  The pair is the post-call state and the error. -/
def SetOperationMode (s : AtaDeviceState) (mode : String) :
    AtaDeviceState × Option String :=
  match opModeStringToInt mode with
  | some modeInt =>
      ({ s with OperationMode := modeInt,
                EffectiveFlags := Int.lor s.EffectiveFlags FlagOperationMode }, none)
  | none => (s, some ("invalid operation mode: " ++ mode))

/-- SetTargetTemperature from ata_device.go: updates SetTemperature and
ORs in FlagTargetTemp.  Rounding to the device increment is the callers
responsibility and is not performed here. -/
def SetTargetTemperature (s : AtaDeviceState) (temp : Rat) : AtaDeviceState :=
  { s with SetTemperature := temp, EffectiveFlags := Int.lor s.EffectiveFlags FlagTargetTemp }

/-- Decimal digit run parser underlying goAtoi: all characters must be in
the range 0 to 9 and at least one digit must be present. -/
def parseNatDigits (cs : List Char) : Option Nat :=
  if cs = [] then none
  else if cs.all Char.isDigit then
    some (cs.foldl (fun acc c => acc * 10 + (c.toNat - 48)) 0)
  else none

/-- Model of strconv.Atoi from the Go standard library as used by
SetFanSpeedMode: an optional single leading plus or minus sign followed
by one or more decimal digits, rejected when the value falls outside the
signed 64 bit integer range (Atoi reports ErrRange there, which the
caller treats as failure). -/
def goAtoi (s : String) : Option Int :=
  match s.toList with
  | '+' :: rest =>
      (parseNatDigits rest).bind fun n =>
        if (n : Int) ≤ 9223372036854775807 then some (n : Int) else none
  | '-' :: rest =>
      (parseNatDigits rest).bind fun n =>
        if (n : Int) ≤ 9223372036854775808 then some (-(n : Int)) else none
  | cs =>
      (parseNatDigits cs).bind fun n =>
        if (n : Int) ≤ 9223372036854775807 then some (n : Int) else none

/-- SetFanSpeedMode from ata_device.go: the label auto maps to fan speed
code 0; any other label is parsed with strconv.Atoi and accepted when it
is a positive integer; otherwise the call fails and the receiver is left
untouched. -/
def SetFanSpeedMode (s : AtaDeviceState) (speed : String) :
    AtaDeviceState × Option String :=
  if speed = FanAuto then
    ({ s with SetFanSpeed := FanSpeedAuto,
              EffectiveFlags := Int.lor s.EffectiveFlags FlagFanSpeed }, none)
  else
    match goAtoi speed with
    | some speedInt =>
        if speedInt > 0 then
          ({ s with SetFanSpeed := speedInt,
                    EffectiveFlags := Int.lor s.EffectiveFlags FlagFanSpeed }, none)
        else (s, some ("invalid fan speed: " ++ speed))
    | none => (s, some ("invalid fan speed: " ++ speed))

/-- FanSpeedString from ata_device.go: auto for code 0, otherwise the
decimal representation of the code (strconv.Itoa). -/
def FanSpeedString (s : AtaDeviceState) : String :=
  if s.SetFanSpeed = FanSpeedAuto then FanAuto
  else toString s.SetFanSpeed

/-- The Go map vaneVertIntToString, as a partial lookup function. -/
def vaneVertIntToString (n : Int) : Option String :=
  if n = VaneVertAuto then some VaneAuto
  else if n = VaneVert1 then some "1"
  else if n = VaneVert2 then some "2"
  else if n = VaneVert3 then some "3"
  else if n = VaneVert4 then some "4"
  else if n = VaneVert5 then some "5"
  else if n = VaneVertSwing then some VaneSwing
  else none

/-- The Go map vaneVertStringToInt, as a partial lookup function. -/
def vaneVertStringToInt (s : String) : Option Int :=
  if s = VaneAuto then some VaneVertAuto
  else if s = "1" then some VaneVert1
  else if s = "2" then some VaneVert2
  else if s = "3" then some VaneVert3
  else if s = "4" then some VaneVert4
  else if s = "5" then some VaneVert5
  else if s = VaneSwing then some VaneVertSwing
  else none

/-- The Go map vaneHorizIntToString, as a partial lookup function. -/
def vaneHorizIntToString (n : Int) : Option String :=
  if n = VaneHorizAuto then some VaneAuto
  else if n = VaneHoriz1 then some "1"
  else if n = VaneHoriz2 then some "2"
  else if n = VaneHoriz3 then some "3"
  else if n = VaneHoriz4 then some "4"
  else if n = VaneHoriz5 then some "5"
  else if n = VaneHorizSplit then some VaneSplit
  else if n = VaneHorizSwing then some VaneSwing
  else none

/-- The Go map vaneHorizStringToInt, as a partial lookup function. -/
def vaneHorizStringToInt (s : String) : Option Int :=
  if s = VaneAuto then some VaneHorizAuto
  else if s = "1" then some VaneHoriz1
  else if s = "2" then some VaneHoriz2
  else if s = "3" then some VaneHoriz3
  else if s = "4" then some VaneHoriz4
  else if s = "5" then some VaneHoriz5
  else if s = VaneSplit then some VaneHorizSplit
  else if s = VaneSwing then some VaneHorizSwing
  else none

/-- VaneVerticalString from ata_device.go: the string representation of
the VaneVertical field, with unknown for codes outside the map. -/
def VaneVerticalString (s : AtaDeviceState) : String :=
  match vaneVertIntToString s.VaneVertical with
  | some pos => pos
  | none => "unknown"

/-- SetVaneVertical from ata_device.go: updates VaneVertical from a
string label and ORs in FlagVaneVertical, or returns an error leaving
the receiver untouched. -/
def SetVaneVertical (s : AtaDeviceState) (pos : String) :
    AtaDeviceState × Option String :=
  match vaneVertStringToInt pos with
  | some posInt =>
      ({ s with VaneVertical := posInt,
                EffectiveFlags := Int.lor s.EffectiveFlags FlagVaneVertical }, none)
  | none => (s, some ("invalid vertical vane position: " ++ pos))

/-- VaneHorizontalString from ata_device.go: the string representation of
the VaneHorizontal field, with unknown for codes outside the map. -/
def VaneHorizontalString (s : AtaDeviceState) : String :=
  match vaneHorizIntToString s.VaneHorizontal with
  | some pos => pos
  | none => "unknown"

/-- SetVaneHorizontal from ata_device.go: updates VaneHorizontal from a
string label and ORs in FlagVaneHorizontal, or returns an error leaving
the receiver untouched. -/
def SetVaneHorizontal (s : AtaDeviceState) (pos : String) :
    AtaDeviceState × Option String :=
  match vaneHorizStringToInt pos with
  | some posInt =>
      ({ s with VaneHorizontal := posInt,
                EffectiveFlags := Int.lor s.EffectiveFlags FlagVaneHorizontal }, none)
  | none => (s, some ("invalid horizontal vane position: " ++ pos))

/-- ResetEffectiveFlags from ata_device.go: clears the change flags. -/
def ResetEffectiveFlags (s : AtaDeviceState) : AtaDeviceState :=
  { s with EffectiveFlags := 0 }

/-- Base URL constant from client.go. -/
def baseURL : String := "https://app.melcloud.com/Mitsubishi.Wifi.Client"

/-- Models the local, deterministic prefix of Client.SetDeviceState in
client.go: reject an empty EffectiveFlags bitmask with the
NoPendingChanges error before anything is sent, then force
HasPendingCommand true on the outgoing copy, then select the endpoint by
DeviceType, rejecting every type other than 0 (ATA).  On success the
result is the endpoint URL together with the exact payload that would be
marshalled and transmitted; the HTTP transport itself is an external
collaborator and is outside the model. -/
def SetDeviceState (state : AtaDeviceState) : Except String (String × AtaDeviceState) :=
  if state.EffectiveFlags = 0 then
    .error "SetDeviceState requires EffectiveFlags to be set to indicate changes"
  else
    let state := { state with HasPendingCommand := true }
    if state.DeviceType = 0 then
      .ok (baseURL ++ "/Device/SetAta", state)
    else
      .error ("unsupported device type for SetDeviceState: " ++ toString state.DeviceType)

/-! Helper lemmas about bitwise or on Int, used for the change-flag
bitmask reasoning.  Int.lor agrees with the Go or-assignment on int64
because bitwise or never overflows. -/

theorem nat_and_idem_right (a b : Nat) : (a &&& b) &&& b = a &&& b := by
  apply Nat.eq_of_testBit_eq
  intro i
  rw [Nat.testBit_and, Nat.testBit_and]
  cases a.testBit i <;> cases b.testBit i <;> rfl

theorem nat_or_idem_right (a b : Nat) : (a ||| b) ||| b = a ||| b := by
  apply Nat.eq_of_testBit_eq
  intro i
  rw [Nat.testBit_or, Nat.testBit_or]
  cases a.testBit i <;> cases b.testBit i <;> rfl

theorem nat_ldiff_and (a b : Nat) : Nat.ldiff a b &&& a = Nat.ldiff a b := by
  apply Nat.eq_of_testBit_eq
  intro i
  rw [Nat.testBit_and, Nat.testBit_ldiff]
  cases a.testBit i <;> cases b.testBit i <;> rfl

theorem nat_ldiff_idem (a b : Nat) : Nat.ldiff (Nat.ldiff a b) b = Nat.ldiff a b := by
  apply Nat.eq_of_testBit_eq
  intro i
  rw [Nat.testBit_ldiff, Nat.testBit_ldiff]
  cases a.testBit i <;> cases b.testBit i <;> rfl

theorem int_lor_idem_right (a b : Int) : Int.lor (Int.lor a b) b = Int.lor a b := by
  cases a <;> cases b <;> simp only [Int.lor]
  case ofNat.ofNat m n => rw [nat_or_idem_right]
  case ofNat.negSucc m n => rw [nat_ldiff_and]
  case negSucc.ofNat m n => rw [nat_ldiff_idem]
  case negSucc.negSucc m n => rw [nat_and_idem_right]

theorem int_two_pow_eq_coe (k : Nat) : ((2 : Int) ^ k) = ((2 ^ k : Nat) : Int) := by
  push_cast
  ring

theorem int_testBit_lor_pow_self (a : Int) (k : Nat) :
    (Int.lor a ((2 : Int) ^ k)).testBit k = true := by
  rw [Int.testBit_lor]
  have h : ((2 : Int) ^ k).testBit k = true := by
    rw [int_two_pow_eq_coe]
    show Nat.testBit (2 ^ k) k = true
    exact Nat.testBit_two_pow_self
  simp [h]

theorem int_testBit_lor_pow_ne (a : Int) (k j : Nat) (h : j ≠ k) :
    (Int.lor a ((2 : Int) ^ k)).testBit j = a.testBit j := by
  rw [Int.testBit_lor]
  have h2 : ((2 : Int) ^ k).testBit j = false := by
    rw [int_two_pow_eq_coe]
    show Nat.testBit (2 ^ k) j = false
    exact Nat.testBit_two_pow_of_ne (Ne.symm h)
  simp [h2]

/-! Helper lemmas about the characters of decimal representations, used
to show that FanSpeedString never produces the sentinel labels. -/

theorem toDigitsCore_mem (f : Nat) :
    ∀ (n : Nat) (l : List Char) (c : Char), c ∈ Nat.toDigitsCore 10 f n l →
      c ∈ l ∨ ∃ m, m < 10 ∧ c = Nat.digitChar m := by
  induction f with
  | zero =>
      intro n l c hc
      exact Or.inl hc
  | succ f ih =>
      intro n l c hc
      simp only [Nat.toDigitsCore] at hc
      by_cases hdiv : n / 10 = 0
      · rw [if_pos hdiv] at hc
        rcases List.mem_cons.mp hc with h | h
        · exact Or.inr ⟨n % 10, Nat.mod_lt n (by decide), h⟩
        · exact Or.inl h
      · rw [if_neg hdiv] at hc
        rcases ih (n / 10) (Nat.digitChar (n % 10) :: l) c hc with h | h
        · rcases List.mem_cons.mp h with h2 | h2
          · exact Or.inr ⟨n % 10, Nat.mod_lt n (by decide), h2⟩
          · exact Or.inl h2
        · exact Or.inr h

theorem nat_repr_mem (n : Nat) (c : Char) (hc : c ∈ (Nat.repr n).data) :
    ∃ m, m < 10 ∧ c = Nat.digitChar m := by
  unfold Nat.repr Nat.toDigits at hc
  rw [List.asString] at hc
  rcases toDigitsCore_mem (n + 1) n [] c hc with h | h
  · simp at h
  · exact h

theorem int_repr_chars (n : Int) (c : Char) (hc : c ∈ (toString n).data) :
    c = '-' ∨ ∃ m, m < 10 ∧ c = Nat.digitChar m := by
  cases n with
  | ofNat m =>
      right
      exact nat_repr_mem m c hc
  | negSucc m =>
      have h0 : (toString (Int.negSucc m)).data = '-' :: (Nat.repr (m + 1)).data := rfl
      rw [h0] at hc
      rcases List.mem_cons.mp hc with h | h
      · exact Or.inl h
      · exact Or.inr (nat_repr_mem (m + 1) c h)

theorem digitChar_ne_letters : ∀ m < 10, Nat.digitChar m ≠ 'u' ∧ Nat.digitChar m ≠ 'a' := by
  decide

theorem int_toString_ne_unknown (n : Int) : toString n ≠ "unknown" := by
  intro h
  have hu : 'u' ∈ (toString n).data := by rw [h]; decide
  rcases int_repr_chars n 'u' hu with h2 | ⟨m, hm, h2⟩
  · exact absurd h2 (by decide)
  · exact absurd h2.symm (digitChar_ne_letters m hm).1

theorem int_toString_ne_auto (n : Int) : toString n ≠ "auto" := by
  intro h
  have ha : 'a' ∈ (toString n).data := by rw [h]; decide
  rcases int_repr_chars n 'a' ha with h2 | ⟨m, hm, h2⟩
  · exact absurd h2 (by decide)
  · exact absurd h2.symm (digitChar_ne_letters m hm).2

/-- C1: for every pair in the operation-mode, vane-vertical and
vane-horizontal tables (Heat=1, Dry=2, Cool=3, FanOnly=7, Auto=8;
vane vertical auto=0, 1..5, swing=7; vane horizontal auto=0, 1..5,
split=8, swing=12), decoding the integer code yields the label and
encoding the label stores the integer code in the field: the round trip
holds in both directions. -/
theorem mode_and_vane_tables_roundtrip :
    (∀ s : AtaDeviceState, OperationModeString { s with OperationMode := OpModeHeat } = ModeHeat) ∧
    (∀ s : AtaDeviceState, OperationModeString { s with OperationMode := OpModeDry } = ModeDry) ∧
    (∀ s : AtaDeviceState, OperationModeString { s with OperationMode := OpModeCool } = ModeCool) ∧
    (∀ s : AtaDeviceState, OperationModeString { s with OperationMode := OpModeFanOnly } = ModeFanOnly) ∧
    (∀ s : AtaDeviceState, OperationModeString { s with OperationMode := OpModeHeatCool } = ModeHeatCool) ∧
    (∀ s, SetOperationMode s ModeHeat =
      ({ s with OperationMode := OpModeHeat,
                EffectiveFlags := Int.lor s.EffectiveFlags FlagOperationMode }, none)) ∧
    (∀ s, SetOperationMode s ModeDry =
      ({ s with OperationMode := OpModeDry,
                EffectiveFlags := Int.lor s.EffectiveFlags FlagOperationMode }, none)) ∧
    (∀ s, SetOperationMode s ModeCool =
      ({ s with OperationMode := OpModeCool,
                EffectiveFlags := Int.lor s.EffectiveFlags FlagOperationMode }, none)) ∧
    (∀ s, SetOperationMode s ModeFanOnly =
      ({ s with OperationMode := OpModeFanOnly,
                EffectiveFlags := Int.lor s.EffectiveFlags FlagOperationMode }, none)) ∧
    (∀ s, SetOperationMode s ModeHeatCool =
      ({ s with OperationMode := OpModeHeatCool,
                EffectiveFlags := Int.lor s.EffectiveFlags FlagOperationMode }, none)) ∧
    (∀ s : AtaDeviceState, VaneVerticalString { s with VaneVertical := VaneVertAuto } = VaneAuto) ∧
    (∀ s : AtaDeviceState, VaneVerticalString { s with VaneVertical := VaneVert1 } = "1") ∧
    (∀ s : AtaDeviceState, VaneVerticalString { s with VaneVertical := VaneVert2 } = "2") ∧
    (∀ s : AtaDeviceState, VaneVerticalString { s with VaneVertical := VaneVert3 } = "3") ∧
    (∀ s : AtaDeviceState, VaneVerticalString { s with VaneVertical := VaneVert4 } = "4") ∧
    (∀ s : AtaDeviceState, VaneVerticalString { s with VaneVertical := VaneVert5 } = "5") ∧
    (∀ s : AtaDeviceState, VaneVerticalString { s with VaneVertical := VaneVertSwing } = VaneSwing) ∧
    (∀ s, SetVaneVertical s VaneAuto =
      ({ s with VaneVertical := VaneVertAuto,
                EffectiveFlags := Int.lor s.EffectiveFlags FlagVaneVertical }, none)) ∧
    (∀ s, SetVaneVertical s "1" =
      ({ s with VaneVertical := VaneVert1,
                EffectiveFlags := Int.lor s.EffectiveFlags FlagVaneVertical }, none)) ∧
    (∀ s, SetVaneVertical s "2" =
      ({ s with VaneVertical := VaneVert2,
                EffectiveFlags := Int.lor s.EffectiveFlags FlagVaneVertical }, none)) ∧
    (∀ s, SetVaneVertical s "3" =
      ({ s with VaneVertical := VaneVert3,
                EffectiveFlags := Int.lor s.EffectiveFlags FlagVaneVertical }, none)) ∧
    (∀ s, SetVaneVertical s "4" =
      ({ s with VaneVertical := VaneVert4,
                EffectiveFlags := Int.lor s.EffectiveFlags FlagVaneVertical }, none)) ∧
    (∀ s, SetVaneVertical s "5" =
      ({ s with VaneVertical := VaneVert5,
                EffectiveFlags := Int.lor s.EffectiveFlags FlagVaneVertical }, none)) ∧
    (∀ s, SetVaneVertical s VaneSwing =
      ({ s with VaneVertical := VaneVertSwing,
                EffectiveFlags := Int.lor s.EffectiveFlags FlagVaneVertical }, none)) ∧
    (∀ s : AtaDeviceState, VaneHorizontalString { s with VaneHorizontal := VaneHorizAuto } = VaneAuto) ∧
    (∀ s : AtaDeviceState, VaneHorizontalString { s with VaneHorizontal := VaneHoriz1 } = "1") ∧
    (∀ s : AtaDeviceState, VaneHorizontalString { s with VaneHorizontal := VaneHoriz2 } = "2") ∧
    (∀ s : AtaDeviceState, VaneHorizontalString { s with VaneHorizontal := VaneHoriz3 } = "3") ∧
    (∀ s : AtaDeviceState, VaneHorizontalString { s with VaneHorizontal := VaneHoriz4 } = "4") ∧
    (∀ s : AtaDeviceState, VaneHorizontalString { s with VaneHorizontal := VaneHoriz5 } = "5") ∧
    (∀ s : AtaDeviceState, VaneHorizontalString { s with VaneHorizontal := VaneHorizSplit } = VaneSplit) ∧
    (∀ s : AtaDeviceState, VaneHorizontalString { s with VaneHorizontal := VaneHorizSwing } = VaneSwing) ∧
    (∀ s, SetVaneHorizontal s VaneAuto =
      ({ s with VaneHorizontal := VaneHorizAuto,
                EffectiveFlags := Int.lor s.EffectiveFlags FlagVaneHorizontal }, none)) ∧
    (∀ s, SetVaneHorizontal s "1" =
      ({ s with VaneHorizontal := VaneHoriz1,
                EffectiveFlags := Int.lor s.EffectiveFlags FlagVaneHorizontal }, none)) ∧
    (∀ s, SetVaneHorizontal s "2" =
      ({ s with VaneHorizontal := VaneHoriz2,
                EffectiveFlags := Int.lor s.EffectiveFlags FlagVaneHorizontal }, none)) ∧
    (∀ s, SetVaneHorizontal s "3" =
      ({ s with VaneHorizontal := VaneHoriz3,
                EffectiveFlags := Int.lor s.EffectiveFlags FlagVaneHorizontal }, none)) ∧
    (∀ s, SetVaneHorizontal s "4" =
      ({ s with VaneHorizontal := VaneHoriz4,
                EffectiveFlags := Int.lor s.EffectiveFlags FlagVaneHorizontal }, none)) ∧
    (∀ s, SetVaneHorizontal s "5" =
      ({ s with VaneHorizontal := VaneHoriz5,
                EffectiveFlags := Int.lor s.EffectiveFlags FlagVaneHorizontal }, none)) ∧
    (∀ s, SetVaneHorizontal s VaneSplit =
      ({ s with VaneHorizontal := VaneHorizSplit,
                EffectiveFlags := Int.lor s.EffectiveFlags FlagVaneHorizontal }, none)) ∧
    (∀ s, SetVaneHorizontal s VaneSwing =
      ({ s with VaneHorizontal := VaneHorizSwing,
                EffectiveFlags := Int.lor s.EffectiveFlags FlagVaneHorizontal }, none)) :=
  ⟨fun _ => rfl, fun _ => rfl, fun _ => rfl, fun _ => rfl, fun _ => rfl,
   fun _ => rfl, fun _ => rfl, fun _ => rfl, fun _ => rfl, fun _ => rfl,
   fun _ => rfl, fun _ => rfl, fun _ => rfl, fun _ => rfl, fun _ => rfl,
   fun _ => rfl, fun _ => rfl, fun _ => rfl, fun _ => rfl, fun _ => rfl,
   fun _ => rfl, fun _ => rfl, fun _ => rfl, fun _ => rfl, fun _ => rfl,
   fun _ => rfl, fun _ => rfl, fun _ => rfl, fun _ => rfl, fun _ => rfl,
   fun _ => rfl, fun _ => rfl, fun _ => rfl, fun _ => rfl, fun _ => rfl,
   fun _ => rfl, fun _ => rfl, fun _ => rfl, fun _ => rfl, fun _ => rfl⟩

/-- C2: for every string-accepting setter and every input string not
recognized by the corresponding table, the setter returns an error whose
message identifies the field and contains the offending string, and the
post-call state is exactly the previous state: the target field keeps
its value and no bit is added to EffectiveFlags. -/
theorem invalid_labels_error_and_leave_state_unchanged :
    (∀ (s : AtaDeviceState) (mode : String), opModeStringToInt mode = none →
      SetOperationMode s mode = (s, some ("invalid operation mode: " ++ mode))) ∧
    (∀ (s : AtaDeviceState) (speed : String), speed ≠ FanAuto →
      (∀ n, goAtoi speed = some n → ¬ 0 < n) →
      SetFanSpeedMode s speed = (s, some ("invalid fan speed: " ++ speed))) ∧
    (∀ (s : AtaDeviceState) (pos : String), vaneVertStringToInt pos = none →
      SetVaneVertical s pos = (s, some ("invalid vertical vane position: " ++ pos))) ∧
    (∀ (s : AtaDeviceState) (pos : String), vaneHorizStringToInt pos = none →
      SetVaneHorizontal s pos = (s, some ("invalid horizontal vane position: " ++ pos))) := by
  refine ⟨?_, ?_, ?_, ?_⟩
  · intro s mode h
    simp [SetOperationMode, h]
  · intro s speed h1 h2
    simp only [SetFanSpeedMode, if_neg h1]
    cases hg : goAtoi speed with
    | none => rfl
    | some n => simp [if_neg (h2 n hg)]
  · intro s pos h
    simp [SetVaneVertical, h]
  · intro s pos h
    simp [SetVaneHorizontal, h]

/-- Witness for C2 at concrete rejected labels. -/
theorem invalid_labels_witness :
    SetOperationMode zeroAtaDeviceState "frost" =
      (zeroAtaDeviceState, some "invalid operation mode: frost") ∧
    SetFanSpeedMode zeroAtaDeviceState "0" =
      (zeroAtaDeviceState, some "invalid fan speed: 0") ∧
    SetVaneVertical zeroAtaDeviceState "6" =
      (zeroAtaDeviceState, some "invalid vertical vane position: 6") ∧
    SetVaneHorizontal zeroAtaDeviceState "wide" =
      (zeroAtaDeviceState, some "invalid horizontal vane position: wide") := by
  refine ⟨?_, ?_, ?_, ?_⟩
  · exact invalid_labels_error_and_leave_state_unchanged.1 zeroAtaDeviceState "frost" (by decide)
  · refine invalid_labels_error_and_leave_state_unchanged.2.1 zeroAtaDeviceState "0" (by decide) ?_
    intro n hn
    rw [show goAtoi "0" = some 0 from by decide] at hn
    injection hn with h
    rw [← h]
    decide
  · exact invalid_labels_error_and_leave_state_unchanged.2.2.1 zeroAtaDeviceState "6" (by decide)
  · exact invalid_labels_error_and_leave_state_unchanged.2.2.2 zeroAtaDeviceState "wide" (by decide)

/-- C3: a state whose EffectiveFlags bitmask is zero is rejected locally
by the write guard with the NoPendingChanges error, before any network
activity; in particular the zero state of a fresh decode cannot be
written. -/
theorem empty_flags_write_rejected :
    (∀ s : AtaDeviceState, s.EffectiveFlags = 0 →
      SetDeviceState s =
        .error "SetDeviceState requires EffectiveFlags to be set to indicate changes") ∧
    SetDeviceState zeroAtaDeviceState =
      .error "SetDeviceState requires EffectiveFlags to be set to indicate changes" := by
  refine ⟨?_, rfl⟩
  intro s h
  simp [SetDeviceState, h]

/-- Witness for C3 at a concrete fresh state. -/
theorem empty_flags_write_rejected_witness :
    SetDeviceState { zeroAtaDeviceState with DeviceID := 42, DeviceType := 1 } =
      .error "SetDeviceState requires EffectiveFlags to be set to indicate changes" :=
  empty_flags_write_rejected.1 { zeroAtaDeviceState with DeviceID := 42, DeviceType := 1 } rfl

/-- C4: for every integer code outside the corresponding table, the
table-backed decoders return the sentinel label unknown instead of
failing, and the fan-speed decoder is total, mapping 0 to auto and every
other code to its decimal string, so no read is ever rejected for an
unrecognized code. -/
theorem unknown_codes_decode_to_sentinel :
    (∀ s : AtaDeviceState, opModeIntToString s.OperationMode = none →
      OperationModeString s = ModeUnknown) ∧
    (∀ s : AtaDeviceState, vaneVertIntToString s.VaneVertical = none →
      VaneVerticalString s = "unknown") ∧
    (∀ s : AtaDeviceState, vaneHorizIntToString s.VaneHorizontal = none →
      VaneHorizontalString s = "unknown") ∧
    (∀ s : AtaDeviceState,
      FanSpeedString s =
        if s.SetFanSpeed = FanSpeedAuto then FanAuto else toString s.SetFanSpeed) := by
  refine ⟨?_, ?_, ?_, fun s => rfl⟩
  · intro s h
    simp [OperationModeString, h]
  · intro s h
    simp [VaneVerticalString, h]
  · intro s h
    simp [VaneHorizontalString, h]

/-- Witness for C4 at concrete unmapped codes. -/
theorem unknown_codes_witness :
    OperationModeString { zeroAtaDeviceState with OperationMode := 99 } = ModeUnknown ∧
    VaneVerticalString { zeroAtaDeviceState with VaneVertical := 6 } = "unknown" ∧
    VaneHorizontalString { zeroAtaDeviceState with VaneHorizontal := 7 } = "unknown" ∧
    FanSpeedString { zeroAtaDeviceState with SetFanSpeed := 4 } =
      (if (4 : Int) = FanSpeedAuto then FanAuto else toString (4 : Int)) := by
  refine ⟨?_, ?_, ?_, ?_⟩
  · exact unknown_codes_decode_to_sentinel.1 _ (by decide)
  · exact unknown_codes_decode_to_sentinel.2.1 _ (by decide)
  · exact unknown_codes_decode_to_sentinel.2.2.1 _ (by decide)
  · exact unknown_codes_decode_to_sentinel.2.2.2 { zeroAtaDeviceState with SetFanSpeed := 4 }

/-! Helper lemmas for the flag-accumulation claim: each fallible setter,
when it succeeds, leaves EffectiveFlags equal to the previous flags with
its own bit or-ed in. -/

theorem setOperationMode_ok_flags (s : AtaDeviceState) (mode : String)
    (h : (SetOperationMode s mode).2 = none) :
    ((SetOperationMode s mode).1).EffectiveFlags =
      Int.lor s.EffectiveFlags FlagOperationMode := by
  cases hm : opModeStringToInt mode with
  | some m => simp [SetOperationMode, hm]
  | none => simp [SetOperationMode, hm] at h

theorem setFanSpeedMode_ok_flags (s : AtaDeviceState) (speed : String)
    (h : (SetFanSpeedMode s speed).2 = none) :
    ((SetFanSpeedMode s speed).1).EffectiveFlags =
      Int.lor s.EffectiveFlags FlagFanSpeed := by
  by_cases ha : speed = FanAuto
  · simp [SetFanSpeedMode, ha]
  · cases hg : goAtoi speed with
    | none => simp [SetFanSpeedMode, if_neg ha, hg] at h
    | some n =>
        by_cases hn : n > 0
        · simp [SetFanSpeedMode, if_neg ha, hg, hn]
        · simp [SetFanSpeedMode, if_neg ha, hg, hn] at h

theorem setVaneVertical_ok_flags (s : AtaDeviceState) (pos : String)
    (h : (SetVaneVertical s pos).2 = none) :
    ((SetVaneVertical s pos).1).EffectiveFlags =
      Int.lor s.EffectiveFlags FlagVaneVertical := by
  cases hm : vaneVertStringToInt pos with
  | some m => simp [SetVaneVertical, hm]
  | none => simp [SetVaneVertical, hm] at h

theorem setVaneHorizontal_ok_flags (s : AtaDeviceState) (pos : String)
    (h : (SetVaneHorizontal s pos).2 = none) :
    ((SetVaneHorizontal s pos).1).EffectiveFlags =
      Int.lor s.EffectiveFlags FlagVaneHorizontal := by
  cases hm : vaneHorizStringToInt pos with
  | some m => simp [SetVaneHorizontal, hm]
  | none => simp [SetVaneHorizontal, hm] at h

/-- C5: every successful setter call ORs exactly its one fixed bit into
EffectiveFlags (power 0x01, mode 0x02, target temperature 0x04, fan
speed 0x08, vane vertical 0x10, vane horizontal 0x100).  Each flag
constant is a single power of two; or-ing a power of two sets that bit
and leaves every other bit unchanged; and a repeated call to the same
setter leaves the flag set unchanged after the first. -/
theorem setters_accumulate_exactly_their_flag_bit :
    (∀ (s : AtaDeviceState) (p : Bool),
      (SetPower s p).EffectiveFlags = Int.lor s.EffectiveFlags FlagPower) ∧
    (∀ (s : AtaDeviceState) (t : Rat),
      (SetTargetTemperature s t).EffectiveFlags = Int.lor s.EffectiveFlags FlagTargetTemp) ∧
    (∀ (s : AtaDeviceState) (mode : String), (SetOperationMode s mode).2 = none →
      ((SetOperationMode s mode).1).EffectiveFlags =
        Int.lor s.EffectiveFlags FlagOperationMode) ∧
    (∀ (s : AtaDeviceState) (speed : String), (SetFanSpeedMode s speed).2 = none →
      ((SetFanSpeedMode s speed).1).EffectiveFlags =
        Int.lor s.EffectiveFlags FlagFanSpeed) ∧
    (∀ (s : AtaDeviceState) (pos : String), (SetVaneVertical s pos).2 = none →
      ((SetVaneVertical s pos).1).EffectiveFlags =
        Int.lor s.EffectiveFlags FlagVaneVertical) ∧
    (∀ (s : AtaDeviceState) (pos : String), (SetVaneHorizontal s pos).2 = none →
      ((SetVaneHorizontal s pos).1).EffectiveFlags =
        Int.lor s.EffectiveFlags FlagVaneHorizontal) ∧
    (FlagPower = 2 ^ 0 ∧ FlagOperationMode = 2 ^ 1 ∧ FlagTargetTemp = 2 ^ 2 ∧
      FlagFanSpeed = 2 ^ 3 ∧ FlagVaneVertical = 2 ^ 4 ∧ FlagVaneHorizontal = 2 ^ 8) ∧
    (∀ (a : Int) (k : Nat), (Int.lor a ((2 : Int) ^ k)).testBit k = true) ∧
    (∀ (a : Int) (k j : Nat), j ≠ k →
      (Int.lor a ((2 : Int) ^ k)).testBit j = a.testBit j) ∧
    (∀ (s : AtaDeviceState) (p q : Bool),
      (SetPower (SetPower s p) q).EffectiveFlags = (SetPower s p).EffectiveFlags) ∧
    (∀ (s : AtaDeviceState) (t u : Rat),
      (SetTargetTemperature (SetTargetTemperature s t) u).EffectiveFlags =
        (SetTargetTemperature s t).EffectiveFlags) ∧
    (∀ (s : AtaDeviceState) (m m2 : String), (SetOperationMode s m).2 = none →
      (SetOperationMode (SetOperationMode s m).1 m2).2 = none →
      ((SetOperationMode (SetOperationMode s m).1 m2).1).EffectiveFlags =
        ((SetOperationMode s m).1).EffectiveFlags) ∧
    (∀ (s : AtaDeviceState) (m m2 : String), (SetFanSpeedMode s m).2 = none →
      (SetFanSpeedMode (SetFanSpeedMode s m).1 m2).2 = none →
      ((SetFanSpeedMode (SetFanSpeedMode s m).1 m2).1).EffectiveFlags =
        ((SetFanSpeedMode s m).1).EffectiveFlags) ∧
    (∀ (s : AtaDeviceState) (m m2 : String), (SetVaneVertical s m).2 = none →
      (SetVaneVertical (SetVaneVertical s m).1 m2).2 = none →
      ((SetVaneVertical (SetVaneVertical s m).1 m2).1).EffectiveFlags =
        ((SetVaneVertical s m).1).EffectiveFlags) ∧
    (∀ (s : AtaDeviceState) (m m2 : String), (SetVaneHorizontal s m).2 = none →
      (SetVaneHorizontal (SetVaneHorizontal s m).1 m2).2 = none →
      ((SetVaneHorizontal (SetVaneHorizontal s m).1 m2).1).EffectiveFlags =
        ((SetVaneHorizontal s m).1).EffectiveFlags) := by
  refine ⟨fun s p => rfl, fun s t => rfl,
    setOperationMode_ok_flags, setFanSpeedMode_ok_flags,
    setVaneVertical_ok_flags, setVaneHorizontal_ok_flags,
    ⟨rfl, rfl, rfl, rfl, rfl, rfl⟩,
    int_testBit_lor_pow_self,
    fun a k j h => int_testBit_lor_pow_ne a k j h,
    fun s p q => int_lor_idem_right s.EffectiveFlags FlagPower,
    fun s t u => int_lor_idem_right s.EffectiveFlags FlagTargetTemp,
    ?_, ?_, ?_, ?_⟩
  · intro s m m2 h1 h2
    rw [setOperationMode_ok_flags _ _ h2, setOperationMode_ok_flags _ _ h1,
      int_lor_idem_right]
  · intro s m m2 h1 h2
    rw [setFanSpeedMode_ok_flags _ _ h2, setFanSpeedMode_ok_flags _ _ h1,
      int_lor_idem_right]
  · intro s m m2 h1 h2
    rw [setVaneVertical_ok_flags _ _ h2, setVaneVertical_ok_flags _ _ h1,
      int_lor_idem_right]
  · intro s m m2 h1 h2
    rw [setVaneHorizontal_ok_flags _ _ h2, setVaneHorizontal_ok_flags _ _ h1,
      int_lor_idem_right]

/-- Witness for C5: concrete successful calls, concrete bit
preservation, and concrete repeated-call idempotence. -/
theorem setters_flag_bit_witness :
    ((SetOperationMode zeroAtaDeviceState ModeHeat).1).EffectiveFlags =
      Int.lor zeroAtaDeviceState.EffectiveFlags FlagOperationMode ∧
    ((SetFanSpeedMode zeroAtaDeviceState "2").1).EffectiveFlags =
      Int.lor zeroAtaDeviceState.EffectiveFlags FlagFanSpeed ∧
    ((SetVaneVertical zeroAtaDeviceState VaneSwing).1).EffectiveFlags =
      Int.lor zeroAtaDeviceState.EffectiveFlags FlagVaneVertical ∧
    ((SetVaneHorizontal zeroAtaDeviceState VaneSplit).1).EffectiveFlags =
      Int.lor zeroAtaDeviceState.EffectiveFlags FlagVaneHorizontal ∧
    (Int.lor 5 ((2 : Int) ^ 4)).testBit 0 = (5 : Int).testBit 0 ∧
    ((SetOperationMode (SetOperationMode zeroAtaDeviceState ModeHeat).1 ModeCool).1).EffectiveFlags =
      ((SetOperationMode zeroAtaDeviceState ModeHeat).1).EffectiveFlags ∧
    ((SetFanSpeedMode (SetFanSpeedMode zeroAtaDeviceState "2").1 "3").1).EffectiveFlags =
      ((SetFanSpeedMode zeroAtaDeviceState "2").1).EffectiveFlags ∧
    ((SetVaneVertical (SetVaneVertical zeroAtaDeviceState "1").1 "2").1).EffectiveFlags =
      ((SetVaneVertical zeroAtaDeviceState "1").1).EffectiveFlags ∧
    ((SetVaneHorizontal (SetVaneHorizontal zeroAtaDeviceState "1").1 "2").1).EffectiveFlags =
      ((SetVaneHorizontal zeroAtaDeviceState "1").1).EffectiveFlags := by
  have h := setters_accumulate_exactly_their_flag_bit
  exact ⟨h.2.2.1 zeroAtaDeviceState ModeHeat (by decide),
    h.2.2.2.1 zeroAtaDeviceState "2" (by decide),
    h.2.2.2.2.1 zeroAtaDeviceState VaneSwing (by decide),
    h.2.2.2.2.2.1 zeroAtaDeviceState VaneSplit (by decide),
    h.2.2.2.2.2.2.2.2.1 5 4 0 (by decide),
    h.2.2.2.2.2.2.2.2.2.2.2.1 zeroAtaDeviceState ModeHeat ModeCool (by decide) (by decide),
    h.2.2.2.2.2.2.2.2.2.2.2.2.1 zeroAtaDeviceState "2" "3" (by decide) (by decide),
    h.2.2.2.2.2.2.2.2.2.2.2.2.2.1 zeroAtaDeviceState "1" "2" (by decide) (by decide),
    h.2.2.2.2.2.2.2.2.2.2.2.2.2.2 zeroAtaDeviceState "1" "2" (by decide) (by decide)⟩

/-- C6: SetFanSpeedMode maps auto to fan speed 0, accepts any other
string exactly when it parses (via strconv.Atoi) as a positive integer,
storing the parsed value with no enumerated upper bound, and fails with
the invalid fan speed error on everything else, including 0 and negative
numbers. -/
theorem fan_speed_encode_auto_or_positive :
    (∀ s : AtaDeviceState, SetFanSpeedMode s FanAuto =
      ({ s with SetFanSpeed := FanSpeedAuto,
                EffectiveFlags := Int.lor s.EffectiveFlags FlagFanSpeed }, none)) ∧
    (∀ (s : AtaDeviceState) (speed : String) (n : Int), speed ≠ FanAuto →
      goAtoi speed = some n → 0 < n →
      SetFanSpeedMode s speed =
        ({ s with SetFanSpeed := n,
                  EffectiveFlags := Int.lor s.EffectiveFlags FlagFanSpeed }, none)) ∧
    (∀ (s : AtaDeviceState) (speed : String), speed ≠ FanAuto →
      (∀ n, goAtoi speed = some n → ¬ 0 < n) →
      SetFanSpeedMode s speed = (s, some ("invalid fan speed: " ++ speed))) ∧
    SetFanSpeedMode zeroAtaDeviceState "0" =
      (zeroAtaDeviceState, some "invalid fan speed: 0") ∧
    SetFanSpeedMode zeroAtaDeviceState "-2" =
      (zeroAtaDeviceState, some "invalid fan speed: -2") := by
  refine ⟨fun s => rfl, ?_, ?_, by decide, by decide⟩
  · intro s speed n h1 h2 h3
    simp only [SetFanSpeedMode, if_neg h1, h2]
    simp [h3]
  · intro s speed h1 h2
    simp only [SetFanSpeedMode, if_neg h1]
    cases hg : goAtoi speed with
    | none => rfl
    | some n => simp [if_neg (h2 n hg)]

/-- Witness for C6 at concrete inputs. -/
theorem fan_speed_encode_witness :
    SetFanSpeedMode zeroAtaDeviceState FanAuto =
      ({ zeroAtaDeviceState with
           SetFanSpeed := FanSpeedAuto,
           EffectiveFlags := Int.lor zeroAtaDeviceState.EffectiveFlags FlagFanSpeed }, none) ∧
    SetFanSpeedMode zeroAtaDeviceState "7" =
      ({ zeroAtaDeviceState with
           SetFanSpeed := 7,
           EffectiveFlags := Int.lor zeroAtaDeviceState.EffectiveFlags FlagFanSpeed }, none) ∧
    SetFanSpeedMode zeroAtaDeviceState "abc" =
      (zeroAtaDeviceState, some "invalid fan speed: abc") := by
  refine ⟨fan_speed_encode_auto_or_positive.1 zeroAtaDeviceState,
    fan_speed_encode_auto_or_positive.2.1 zeroAtaDeviceState "7" 7 (by decide) (by decide)
      (by decide),
    fan_speed_encode_auto_or_positive.2.2.1 zeroAtaDeviceState "abc" (by decide) ?_⟩
  intro n hn
  rw [show goAtoi "abc" = none from by decide] at hn
  cases hn

/-- C7: whenever the write guard lets a state through, the transmitted
payload has HasPendingCommand forced to true and carries exactly the
accumulated EffectiveFlags bitmask; for every state with non-empty flags
and ATA device type the guard produces exactly that payload. -/
theorem write_guard_forces_pending_preserves_flags :
    (∀ (s : AtaDeviceState) (url : String) (payload : AtaDeviceState),
      SetDeviceState s = .ok (url, payload) →
      payload.HasPendingCommand = true ∧ payload.EffectiveFlags = s.EffectiveFlags) ∧
    (∀ s : AtaDeviceState, s.EffectiveFlags ≠ 0 → s.DeviceType = 0 →
      SetDeviceState s =
        .ok (baseURL ++ "/Device/SetAta", { s with HasPendingCommand := true })) := by
  have hok : ∀ s : AtaDeviceState, s.EffectiveFlags ≠ 0 → s.DeviceType = 0 →
      SetDeviceState s =
        .ok (baseURL ++ "/Device/SetAta", { s with HasPendingCommand := true }) := by
    intro s hf ht
    simp [SetDeviceState, if_neg hf, ht]
  refine ⟨?_, hok⟩
  intro s url payload h
  by_cases hf : s.EffectiveFlags = 0
  · simp [SetDeviceState, hf] at h
  · by_cases ht : s.DeviceType = 0
    · rw [hok s hf ht] at h
      injection h with h2
      injection h2 with h3 h4
      rw [← h4]
      exact ⟨rfl, rfl⟩
    · simp [SetDeviceState, if_neg hf, if_neg ht] at h

/-- Witness for C7 at a concrete dirty ATA state. -/
theorem write_guard_witness :
    SetDeviceState { zeroAtaDeviceState with EffectiveFlags := 3 } =
      .ok (baseURL ++ "/Device/SetAta",
        { zeroAtaDeviceState with EffectiveFlags := 3, HasPendingCommand := true }) ∧
    ({ zeroAtaDeviceState with
         EffectiveFlags := 3,
         HasPendingCommand := true } : AtaDeviceState).HasPendingCommand = true ∧
    ({ zeroAtaDeviceState with
         EffectiveFlags := 3,
         HasPendingCommand := true } : AtaDeviceState).EffectiveFlags =
      ({ zeroAtaDeviceState with EffectiveFlags := 3 } : AtaDeviceState).EffectiveFlags := by
  have hok := write_guard_forces_pending_preserves_flags.2
    { zeroAtaDeviceState with EffectiveFlags := 3 } (by decide) rfl
  refine ⟨hok, ?_⟩
  have hpair := write_guard_forces_pending_preserves_flags.1
    { zeroAtaDeviceState with EffectiveFlags := 3 } (baseURL ++ "/Device/SetAta")
    { zeroAtaDeviceState with EffectiveFlags := 3, HasPendingCommand := true } hok
  exact hpair

/-- C8: starting from any state with EffectiveFlags zero, setting the
operation mode to cool and then the target temperature to 22 succeeds
and yields mode code 3, temperature 22 and EffectiveFlags 0x06. -/
theorem cool_then_temperature_example (s : AtaDeviceState)
    (h : s.EffectiveFlags = 0) :
    (SetOperationMode s ModeCool).2 = none ∧
    (SetTargetTemperature (SetOperationMode s ModeCool).1 22).OperationMode = OpModeCool ∧
    (SetTargetTemperature (SetOperationMode s ModeCool).1 22).SetTemperature = 22 ∧
    (SetTargetTemperature (SetOperationMode s ModeCool).1 22).EffectiveFlags = 0x06 := by
  refine ⟨rfl, rfl, rfl, ?_⟩
  show Int.lor (Int.lor s.EffectiveFlags FlagOperationMode) FlagTargetTemp = 6
  rw [h]
  decide

/-- Witness for C8 at the zero state. -/
theorem cool_then_temperature_witness :
    (SetOperationMode zeroAtaDeviceState ModeCool).2 = none ∧
    (SetTargetTemperature (SetOperationMode zeroAtaDeviceState ModeCool).1 22).OperationMode =
      OpModeCool ∧
    (SetTargetTemperature (SetOperationMode zeroAtaDeviceState ModeCool).1 22).SetTemperature =
      22 ∧
    (SetTargetTemperature (SetOperationMode zeroAtaDeviceState ModeCool).1 22).EffectiveFlags =
      0x06 :=
  cool_then_temperature_example zeroAtaDeviceState rfl

/-- C9: fan-speed decoding is a total pass-through: every nonzero
SetFanSpeed value, negative ones included, decodes to its decimal string
and never to the unknown sentinel or to auto; only the value 0 decodes
to auto. -/
theorem fan_speed_decode_total_passthrough :
    (∀ s : AtaDeviceState, s.SetFanSpeed ≠ FanSpeedAuto →
      FanSpeedString s = toString s.SetFanSpeed ∧
      FanSpeedString s ≠ "unknown" ∧ FanSpeedString s ≠ FanAuto) ∧
    (∀ s : AtaDeviceState, s.SetFanSpeed = FanSpeedAuto → FanSpeedString s = FanAuto) ∧
    FanSpeedString { zeroAtaDeviceState with SetFanSpeed := -3 } = "-3" := by
  refine ⟨?_, ?_, by decide⟩
  · intro s h
    have he : FanSpeedString s = toString s.SetFanSpeed := by
      simp [FanSpeedString, h]
    refine ⟨he, ?_, ?_⟩
    · rw [he]
      exact int_toString_ne_unknown s.SetFanSpeed
    · rw [he]
      show toString s.SetFanSpeed ≠ "auto"
      exact int_toString_ne_auto s.SetFanSpeed
  · intro s h
    simp [FanSpeedString, h]

/-- Witness for C9 at concrete fan-speed codes. -/
theorem fan_speed_decode_witness :
    (FanSpeedString { zeroAtaDeviceState with SetFanSpeed := -3 } =
        toString (-3 : Int) ∧
      FanSpeedString { zeroAtaDeviceState with SetFanSpeed := -3 } ≠ "unknown" ∧
      FanSpeedString { zeroAtaDeviceState with SetFanSpeed := -3 } ≠ FanAuto) ∧
    FanSpeedString { zeroAtaDeviceState with SetFanSpeed := 0 } = FanAuto := by
  exact ⟨fan_speed_decode_total_passthrough.1
      { zeroAtaDeviceState with SetFanSpeed := -3 } (by decide),
    fan_speed_decode_total_passthrough.2.1
      { zeroAtaDeviceState with SetFanSpeed := 0 } rfl⟩

/-- C10: a state with non-empty flags but a DeviceType other than 0 is
rejected locally with the unsupported device type error before any
network call; and the empty-flags check is evaluated first, so a state
with empty flags gets the NoPendingChanges error regardless of its
device type. -/
theorem unsupported_device_type_rejected_locally :
    (∀ s : AtaDeviceState, s.EffectiveFlags ≠ 0 → s.DeviceType ≠ 0 →
      SetDeviceState s =
        .error ("unsupported device type for SetDeviceState: " ++ toString s.DeviceType)) ∧
    (∀ s : AtaDeviceState, s.EffectiveFlags = 0 →
      SetDeviceState s =
        .error "SetDeviceState requires EffectiveFlags to be set to indicate changes") := by
  constructor
  · intro s hf ht
    simp [SetDeviceState, if_neg hf, if_neg ht]
  · intro s hf
    simp [SetDeviceState, hf]

/-- Witness for C10 at concrete states. -/
theorem unsupported_device_type_witness :
    SetDeviceState { zeroAtaDeviceState with EffectiveFlags := 2, DeviceType := 1 } =
      .error ("unsupported device type for SetDeviceState: " ++ toString (1 : Int)) ∧
    SetDeviceState { zeroAtaDeviceState with DeviceType := 1 } =
      .error "SetDeviceState requires EffectiveFlags to be set to indicate changes" :=
  ⟨unsupported_device_type_rejected_locally.1
      { zeroAtaDeviceState with EffectiveFlags := 2, DeviceType := 1 } (by decide) (by decide),
    unsupported_device_type_rejected_locally.2
      { zeroAtaDeviceState with DeviceType := 1 } rfl⟩

end Melcloud
